import Mathlib

/-!
Verification of the DoltNow task-tracking backend (src/app.py) against its
specification. The FastAPI endpoints are shallowly embedded as pure functions
over an explicit database state; PostgreSQL serial ids are modelled by
next-id counters, CURRENT_TIMESTAMP and the random salt / uuid values by
explicit parameters, and a raised HTTPException by an error outcome.
-/

namespace DoltNow

/-- An HTTPException raised by an endpoint: status code and detail message. -/
structure HTTPError where
  status : Nat
  detail : String
deriving DecidableEq

/-- Result of one endpoint call: a normal return value, a deliberately raised
HTTPException, or an exception that escapes the handler uncaught (the source
has no try/except in the business endpoints, so a storage-layer error
propagates out of the handler as a generic failure, not an HTTPException). -/
inductive Outcome (α : Type) where
  | ok (val : α)
  | httpError (err : HTTPError)
  | unhandledError (msg : String)
deriving DecidableEq

/-- True exactly when the outcome is a raised HTTPException. -/
def Outcome.isHttpError {α : Type} : Outcome α → Bool
  | .httpError _ => true
  | _ => false

/-- Modelled from the spec: the Credential Store component. In the source it
is the external bcrypt library (bcrypt.hashpw with bcrypt.gensalt, and
bcrypt.checkpw), whose code is not under src/. The spec describes hash as a
salted one-way digest embedding a fresh random salt, and verify as
recomputing from the stored hash using its embedded salt. The encoded hash
string is modelled by its information content: the embedded salt and a
digest that determines the hashed password exactly (one-wayness is a
computational property outside a shallow embedding, so the digest is kept as
an abstract faithful fingerprint of the password). -/
structure BHash where
  salt : Nat
  digest : String
deriving DecidableEq

/-- Modelled from the spec: bcrypt.hashpw(password, gensalt()). The fresh
random salt drawn by gensalt is an explicit parameter. -/
def bhash (salt : Nat) (password : String) : BHash :=
  { salt := salt, digest := password }

/-- Modelled from the spec: bcrypt.checkpw recomputes the digest with the
salt embedded in the stored hash and compares. -/
def verify (password : String) (h : BHash) : Bool :=
  bhash h.salt password == h

/-- A row of the users table. -/
structure UserRow where
  id : Nat
  username : String
  email : String
  password_hash : BHash
  workspace_code : String
  passcode : String
  role : String
deriving DecidableEq

/-- A row of the tasks table. The INSERT in add_task omits completed,
created_at and updated_at, which take the table defaults described by the
data model: completed false, timestamps set at insert time. -/
structure TaskRow where
  id : Nat
  workspace_code : String
  task_name : String
  assigned_by : Nat
  assigned_to : Nat
  due_date : Int
  completed : Bool
  created_at : Int
  updated_at : Int
deriving DecidableEq

/-- The database state: both tables plus the serial id counters that
PostgreSQL uses to assign ids (RETURNING id gives the current counter). -/
structure DB where
  users : List UserRow
  tasks : List TaskRow
  nextUserId : Nat
  nextTaskId : Nat
deriving DecidableEq

/-- Request body of POST /signup. workspace_code is optional (None by
default); role defaults to "member" at the API boundary. There is no
passcode field in the request model. -/
structure SignupModel where
  username : String
  email : String
  password : String
  workspace_code : Option String
  role : String
deriving DecidableEq

/-- Request body of POST /login. -/
structure LoginModel where
  username : String
  password : String
deriving DecidableEq

/-- Request body of POST /add_task. -/
structure TaskModel where
  workspace_code : String
  task_name : String
  assigned_by : Nat
  assigned_to : Nat
  due_date : Int
deriving DecidableEq

/-- Success payload of POST /signup. -/
structure SignupResult where
  message : String
  user_id : Nat
  workspace_code : String
  passcode : String
deriving DecidableEq

/-- Success payload of POST /login. -/
structure LoginResult where
  user_id : Nat
  workspace_code : String
  role : String
  passcode : String
deriving DecidableEq

/-- POST /signup. First checks SELECT id FROM users WHERE username OR email
matches and raises 400 on a hit; otherwise hashes the password, mints a
workspace code when none (or an empty string, which Python treats as falsy)
was supplied, and inserts the row with a freshly generated passcode. The
random values drawn in the body (bcrypt salt, uuid workspace code, uuid-hex
passcode) are explicit parameters. -/
def signup (db : DB) (user : SignupModel) (freshSalt : Nat)
    (freshWorkspaceCode : String) (freshPasscode : String) :
    Outcome SignupResult × DB :=
  if db.users.any (fun u => u.username == user.username || u.email == user.email) then
    (.httpError { status := 400, detail := "Username or email already exists" }, db)
  else
    let hashed_pw := bhash freshSalt user.password
    let wc :=
      match user.workspace_code with
      | none => freshWorkspaceCode
      | some s => if s == "" then freshWorkspaceCode else s
    let row : UserRow :=
      { id := db.nextUserId, username := user.username, email := user.email,
        password_hash := hashed_pw, workspace_code := wc,
        passcode := freshPasscode, role := user.role }
    (.ok { message := "User created successfully", user_id := db.nextUserId,
           workspace_code := wc, passcode := freshPasscode },
     { db with users := db.users ++ [row], nextUserId := db.nextUserId + 1 })

/-- POST /login. SELECT ... WHERE username matches, fetchone; a missing row
raises 401 "User not found", a failed bcrypt check raises 401
"Incorrect password", and otherwise the stored binding is returned. -/
def login (db : DB) (credentials : LoginModel) : Outcome LoginResult :=
  match db.users.find? (fun u => u.username == credentials.username) with
  | none => .httpError { status := 401, detail := "User not found" }
  | some row =>
    if verify credentials.password row.password_hash then
      .ok { user_id := row.id, workspace_code := row.workspace_code,
            role := row.role, passcode := row.passcode }
    else
      .httpError { status := 401, detail := "Incorrect password" }

/-- Outcome of the INSERT INTO tasks statement at the storage layer: either
it succeeds, or PostgreSQL reports a constraint violation, which psycopg2
raises as an exception. -/
inductive InsertResult where
  | ok
  | violation (msg : String)
deriving DecidableEq

/-- POST /add_task. Inserts the row unconditionally, with no lookup of
assigned_by or assigned_to. The handler contains no try/except, so when the
storage layer reports a constraint violation the psycopg2 exception escapes
the handler uncaught (conn.commit is never reached and no HTTPException is
raised). -/
def add_task (db : DB) (task : TaskModel) (now : Int)
    (insertRes : InsertResult) : Outcome String × DB :=
  match insertRes with
  | .violation msg => (.unhandledError msg, db)
  | .ok =>
    let row : TaskRow :=
      { id := db.nextTaskId, workspace_code := task.workspace_code,
        task_name := task.task_name, assigned_by := task.assigned_by,
        assigned_to := task.assigned_to, due_date := task.due_date,
        completed := false, created_at := now, updated_at := now }
    (.ok "Task added successfully",
     { db with tasks := db.tasks ++ [row], nextTaskId := db.nextTaskId + 1 })

/-- Nested assigner/assignee object rendered by get_tasks: the stored id and
the username obtained by LEFT JOIN, absent when the id resolves to no user. -/
structure UserRef where
  id : Nat
  username : Option String
deriving DecidableEq

/-- One element of the GET /get_tasks response array. -/
structure TaskView where
  id : Nat
  workspace_code : String
  task_name : String
  assigned_by : UserRef
  assigned_to : UserRef
  due_date : Int
  completed : Bool
deriving DecidableEq

/-- The LEFT JOIN users ON id lookup: the username of the user with the
given id, or none when no user matches. -/
def lookupUsername (db : DB) (uid : Nat) : Option String :=
  (db.users.find? (fun u => u.id == uid)).map (fun u => u.username)

/-- Row assembled by the get_tasks response loop for one task. -/
def taskView (db : DB) (t : TaskRow) : TaskView :=
  { id := t.id, workspace_code := t.workspace_code, task_name := t.task_name,
    assigned_by := { id := t.assigned_by, username := lookupUsername db t.assigned_by },
    assigned_to := { id := t.assigned_to, username := lookupUsername db t.assigned_to },
    due_date := t.due_date, completed := t.completed }

/-- The ORDER BY t.due_date ASC comparison. -/
def dueLe (a b : TaskRow) : Bool := a.due_date ≤ b.due_date

/-- GET /get_tasks. SELECT the tasks of the workspace LEFT JOINed with
the assigner and assignee usernames, ORDER BY due_date ASC, and render each
row. -/
def get_tasks (db : DB) (workspace_code : String) : List TaskView :=
  (((db.tasks.filter (fun t => t.workspace_code == workspace_code)).mergeSort
      dueLe).map (taskView db))

/-- PUT /complete_task. A single UPDATE tasks SET completed=TRUE,
updated_at=CURRENT_TIMESTAMP WHERE id matches; the handler never inspects
the affected row count and returns the success message unconditionally. -/
def complete_task (db : DB) (task_id : Nat) (now : Int) : Outcome String × DB :=
  (.ok "Task marked complete",
   { db with tasks := db.tasks.map (fun t =>
       if t.id == task_id then { t with completed := true, updated_at := now } else t) })

/-- Serial-id invariant maintained by PostgreSQL: every stored user id was
drawn from the counter, hence is below its current value. -/
def DB.wf (db : DB) : Prop :=
  ∀ u ∈ db.users, u.id < db.nextUserId

/-- The empty database, counters at their initial value. -/
def emptyDB : DB := { users := [], tasks := [], nextUserId := 1, nextTaskId := 1 }

/-- A concrete signup request that mints a new workspace. -/
def aliceReq : SignupModel :=
  { username := "alice", email := "alice@x", password := "pw1",
    workspace_code := none, role := "member" }

/-- A concrete signup request joining the workspace W of the first member. -/
def bobReq : SignupModel :=
  { username := "bob", email := "bob@x", password := "pw2",
    workspace_code := some "W", role := "member" }

/-- The database after alice signs up with fresh values salt 0, workspace
code W and passcode AAAAAA. -/
def aliceDB : DB := (signup emptyDB aliceReq 0 "W" "AAAAAA").2

/-- A concrete task row of workspace W whose user references are dangling. -/
def task1 : TaskRow :=
  { id := 1, workspace_code := "W", task_name := "Clean kitchen",
    assigned_by := 1, assigned_to := 2, due_date := 5, completed := false,
    created_at := 0, updated_at := 0 }

/-- A database holding task1 and no users at all. -/
def taskDB : DB := { users := [], tasks := [task1], nextUserId := 1, nextTaskId := 2 }

/-- A concrete add_task request. -/
def taskReq : TaskModel :=
  { workspace_code := "W", task_name := "Clean kitchen",
    assigned_by := 1, assigned_to := 2, due_date := 10 }

/-- Claim C1: the spec requires complete_task on an unknown id to fail with
NotFound, but the handler never inspects the UPDATE row count: completing
task id 1 on a database with no tasks returns the unconditional success
message and leaves the database unchanged, so the missing id is silently
accepted (no task row is modified, as the claim also states). -/
theorem C1_complete_task_unknown_id_silent :
    complete_task emptyDB 1 0 = (.ok "Task marked complete", emptyDB) := rfl

/-- Claim C8, counterexample to the surfaced-as-BadRequest part: when the
storage layer reports a constraint violation during add_task, the handler
raises no HTTPException at all (in particular no 400 BadRequest); the
psycopg2 exception escapes unhandled. -/
theorem C8_counterexample :
    (add_task emptyDB taskReq 0 (.violation "unique constraint violated")).1
        = .unhandledError "unique constraint violated" ∧
    Outcome.isHttpError
        (add_task emptyDB taskReq 0 (.violation "unique constraint violated")).1 = false :=
  ⟨rfl, rfl⟩

/-- Claim C8 as amended: add_task inserts the row unconditionally, with no
check that assigned_by or assigned_to resolve to users (the statement is
universal over the database, dangling references included); on success the
inserted row carries exactly the request fields plus the table defaults,
and on a storage constraint violation the error escapes the handler as an
unhandled exception rather than any HTTPException, leaving the state
unchanged. -/
theorem C8_add_task_unconditional (db : DB) (task : TaskModel) (now : Int) :
    ((add_task db task now .ok).1 = .ok "Task added successfully" ∧
      (add_task db task now .ok).2.tasks = db.tasks ++
        [{ id := db.nextTaskId, workspace_code := task.workspace_code,
           task_name := task.task_name, assigned_by := task.assigned_by,
           assigned_to := task.assigned_to, due_date := task.due_date,
           completed := false, created_at := now, updated_at := now }]) ∧
    (∀ msg : String,
      (add_task db task now (.violation msg)).1 = .unhandledError msg ∧
      Outcome.isHttpError (add_task db task now (.violation msg)).1 = false ∧
      (add_task db task now (.violation msg)).2 = db) :=
  ⟨⟨rfl, rfl⟩, fun _ => ⟨rfl, rfl, rfl⟩⟩

/-- Claim C9: verify accepts the password that was hashed under any salt,
rejects every other password, and hashing one password under two distinct
fresh salts yields distinct stored hashes. -/
theorem C9_hash_verify :
    (∀ (p : String) (s : Nat), verify p (bhash s p) = true) ∧
    (∀ (p q : String) (s : Nat), q ≠ p → verify q (bhash s p) = false) ∧
    (∀ (p : String) (s t : Nat), s ≠ t → bhash s p ≠ bhash t p) := by
  refine ⟨fun p s => ?_, fun p q s hqp => ?_, fun p s t hst => ?_⟩
  · simp [verify, bhash]
  · simp [verify, bhash, BHash.mk.injEq]
    exact hqp
  · simp [bhash, BHash.mk.injEq]
    intro h
    exact absurd h hst

/-- Claim C9 witness at concrete inputs. -/
theorem C9_hash_verify_witness :
    verify "pw" (bhash 0 "pw") = true ∧
    verify "pw2" (bhash 0 "pw") = false ∧
    bhash 0 "pw" ≠ bhash 1 "pw" :=
  ⟨C9_hash_verify.1 "pw" 0,
   C9_hash_verify.2.1 "pw" "pw2" 0 (by decide),
   C9_hash_verify.2.2 "pw" 0 1 (by decide)⟩

/-- Claim C2, counterexample to the NotFound part: login with a username
matching no user raises status 401 (the Unauthorized status, with detail
User not found), not the 404 NotFound status the spec taxonomy assigns to a
missing user. -/
theorem C2_counterexample :
    login emptyDB { username := "alice", password := "pw" }
        = .httpError { status := 401, detail := "User not found" } ∧
    (401 : Nat) ≠ 404 :=
  ⟨rfl, by decide⟩

/-- Claim C4, counterexample: alice is the sole (first) member of workspace
W with generated passcode AAAAAA; bob signs up supplying workspace_code W,
the request model has no passcode field to match, and signup succeeds
anyway, generating the unrelated fresh passcode BBBBBB. -/
theorem C4_counterexample :
    aliceDB.users.map (fun u => (u.workspace_code, u.passcode)) = [("W", "AAAAAA")] ∧
    (signup aliceDB bobReq 1 "Z" "BBBBBB").1
        = .ok { message := "User created successfully", user_id := 2,
                workspace_code := "W", passcode := "BBBBBB" } ∧
    ("BBBBBB" : String) ≠ "AAAAAA" :=
  ⟨rfl, rfl, by decide⟩

/-- Unfolding lemma for login when the username lookup hits a row. -/
theorem login_found (db : DB) (c : LoginModel) (u : UserRow)
    (hf : db.users.find? (fun x => x.username == c.username) = some u) :
    login db c =
      if verify c.password u.password_hash then
        .ok { user_id := u.id, workspace_code := u.workspace_code,
              role := u.role, passcode := u.passcode }
      else .httpError { status := 401, detail := "Incorrect password" } := by
  unfold login
  rw [hf]

/-- Unfolding lemma for login when the username lookup misses. -/
theorem login_missing (db : DB) (c : LoginModel)
    (hf : db.users.find? (fun x => x.username == c.username) = none) :
    login db c = .httpError { status := 401, detail := "User not found" } := by
  unfold login
  rw [hf]

/-- Claim C2 as amended: after any successful signup, login with the stored
username returns exactly the stored user_id, workspace_code, role and
passcode when the password verifies; a wrong password fails with status 401
detail Incorrect password; and a username matching no stored user fails
with status 401 detail User not found (Unauthorized status, not NotFound). -/
theorem C2_login_behaviour (db : DB) (m : SignupModel) (salt : Nat) (wc pc : String)
    (r : SignupResult) (db2 : DB)
    (hsign : signup db m salt wc pc = (.ok r, db2)) :
    (login db2 { username := m.username, password := m.password }
        = .ok { user_id := r.user_id, workspace_code := r.workspace_code,
                role := m.role, passcode := r.passcode }) ∧
    (∀ q : String, q ≠ m.password →
      login db2 { username := m.username, password := q }
          = .httpError { status := 401, detail := "Incorrect password" }) ∧
    (∀ nm : String, (∀ u ∈ db2.users, u.username ≠ nm) →
      login db2 { username := nm, password := m.password }
          = .httpError { status := 401, detail := "User not found" }) := by
  by_cases hdup :
      db.users.any (fun u => u.username == m.username || u.email == m.email) = true
  · rw [signup, if_pos hdup] at hsign
    simp at hsign
  · rw [signup, if_neg hdup] at hsign
    rw [Prod.mk.injEq] at hsign
    obtain ⟨hr, hdb2⟩ := hsign
    subst hdb2
    rw [Outcome.ok.injEq] at hr
    subst hr
    have hnomatch : ∀ q : String, m.username = q →
        db.users.find? (fun u => u.username == q) = none := by
      intro q hq
      refine List.find?_eq_none.2 (fun u hu huq => ?_)
      rw [beq_iff_eq] at huq
      exact hdup (List.any_eq_true.2 ⟨u, hu, by simp [huq, hq]⟩)
    have hrow_mem :
        (db.users ++
          [({ id := db.nextUserId, username := m.username, email := m.email,
              password_hash := bhash salt m.password,
              workspace_code :=
                match m.workspace_code with
                | none => wc
                | some s => if s == "" then wc else s,
              passcode := pc, role := m.role } : UserRow)]).find?
            (fun u => u.username == m.username) =
          some ({ id := db.nextUserId, username := m.username, email := m.email,
                  password_hash := bhash salt m.password,
                  workspace_code :=
                    match m.workspace_code with
                    | none => wc
                    | some s => if s == "" then wc else s,
                  passcode := pc, role := m.role } : UserRow) := by
      rw [List.find?_append, hnomatch m.username rfl]
      simp [List.find?]
    refine ⟨?_, ?_, ?_⟩
    · rw [login_found _ _ _ hrow_mem, if_pos (by simp [verify, bhash])]
    · intro q hq
      rw [login_found _ _ _ hrow_mem, if_neg ?_]
      simp only [verify, bhash, beq_iff_eq, BHash.mk.injEq]
      intro hcontra
      exact hq hcontra.2
    · intro nm hnm
      refine login_missing _ _ (List.find?_eq_none.2 (fun u hu huq => ?_))
      rw [beq_iff_eq] at huq
      exact hnm u hu huq

/-- Claim C2 witness: the concrete signup of alice followed by logins. -/
theorem C2_login_behaviour_witness :
    login aliceDB { username := "alice", password := "pw1" }
        = .ok { user_id := 1, workspace_code := "W", role := "member",
                passcode := "AAAAAA" } :=
  (C2_login_behaviour emptyDB aliceReq 0 "W" "AAAAAA"
      { message := "User created successfully", user_id := 1,
        workspace_code := "W", passcode := "AAAAAA" }
      aliceDB rfl).1

/-- Claim C3: signup fails with the Conflict error exactly when the
requested username or email already exists, and then the database is
returned unchanged (the full result pair carries the original state); when
both are fresh, signup succeeds, the returned user_id is the current serial
counter, hence assigned to no existing user, and exactly one row with that
id is appended. -/
theorem C3_signup_conflict (db : DB) (m : SignupModel) (salt : Nat) (wc pc : String)
    (hwf : db.wf) :
    ((∃ u ∈ db.users, u.username = m.username ∨ u.email = m.email) →
      signup db m salt wc pc
        = (.httpError { status := 400, detail := "Username or email already exists" }, db)) ∧
    ((∀ u ∈ db.users, u.username ≠ m.username ∧ u.email ≠ m.email) →
      ∃ r : SignupResult, (signup db m salt wc pc).1 = .ok r ∧
        r.user_id = db.nextUserId ∧
        (∀ u ∈ db.users, u.id ≠ r.user_id) ∧
        ∃ row : UserRow, row.id = r.user_id ∧
          (signup db m salt wc pc).2.users = db.users ++ [row]) := by
  constructor
  · rintro ⟨u, hu, hdup⟩
    have hany : db.users.any
        (fun u => u.username == m.username || u.email == m.email) = true := by
      refine List.any_eq_true.2 ⟨u, hu, ?_⟩
      rcases hdup with h | h
      · simp [h]
      · simp [h]
    rw [signup, if_pos hany]
  · intro hfresh
    have hany : ¬ db.users.any
        (fun u => u.username == m.username || u.email == m.email) = true := by
      intro hcontra
      obtain ⟨u, hu, hor⟩ := List.any_eq_true.1 hcontra
      rcases Bool.or_eq_true_iff.1 hor with h | h
      · exact (hfresh u hu).1 (beq_iff_eq.1 h)
      · exact (hfresh u hu).2 (beq_iff_eq.1 h)
    rw [signup, if_neg hany]
    refine ⟨_, rfl, rfl, fun u hu => ?_, _, rfl, rfl⟩
    exact Nat.ne_of_lt (hwf u hu)

/-- Claim C3 witness: signing up alice again (same username, different
email) on the concrete one-user database fails with Conflict and leaves the
state unchanged. -/
theorem C3_signup_conflict_witness :
    signup aliceDB
        { username := "alice", email := "other@x", password := "zz",
          workspace_code := none, role := "member" } 1 "X" "CCCCCC"
      = (.httpError { status := 400, detail := "Username or email already exists" },
         aliceDB) :=
  ((C3_signup_conflict aliceDB
      { username := "alice", email := "other@x", password := "zz",
        workspace_code := none, role := "member" } 1 "X" "CCCCCC"
      (by unfold DB.wf; decide)).1) (by decide)

/-- Claim C4 as amended: signup supplying an existing, nonempty
workspace_code joins that workspace unconditionally; the request has no
passcode field and nothing is validated against the passcodes of existing
members, the only failure condition being a duplicate username or email.
The returned passcode is the freshly generated one, unrelated to the
workspace. -/
theorem C4_join_without_passcode (db : DB) (m : SignupModel) (salt : Nat)
    (wcFresh pc : String) (w : String)
    (hw : m.workspace_code = some w) (hne : w ≠ "")
    (hfresh : ∀ u ∈ db.users, u.username ≠ m.username ∧ u.email ≠ m.email) :
    ∃ r : SignupResult, (signup db m salt wcFresh pc).1 = .ok r ∧
      r.workspace_code = w ∧ r.passcode = pc := by
  have hany : ¬ db.users.any
      (fun u => u.username == m.username || u.email == m.email) = true := by
    intro hcontra
    obtain ⟨u, hu, hor⟩ := List.any_eq_true.1 hcontra
    rcases Bool.or_eq_true_iff.1 hor with h | h
    · exact (hfresh u hu).1 (beq_iff_eq.1 h)
    · exact (hfresh u hu).2 (beq_iff_eq.1 h)
  rw [signup, if_neg hany]
  refine ⟨_, rfl, ?_, rfl⟩
  show (match m.workspace_code with
        | none => wcFresh
        | some s => if s == "" then wcFresh else s) = w
  rw [hw]
  simp [hne]

/-- Claim C4 witness: bob joins workspace W of the concrete alice database
with no passcode check, receiving his own fresh passcode. -/
theorem C4_join_without_passcode_witness :
    ∃ r : SignupResult, (signup aliceDB bobReq 1 "Z" "BBBBBB").1 = .ok r ∧
      r.workspace_code = "W" ∧ r.passcode = "BBBBBB" :=
  C4_join_without_passcode aliceDB bobReq 1 "Z" "BBBBBB" "W" rfl (by decide)
    (by decide)

/-- Claim C5: get_tasks returns a list sorted non-decreasing by due_date
that is a permutation of one rendered row per stored task of the workspace
(so exactly N entries for N tasks), and a workspace with no tasks yields
the empty list rather than an error. -/
theorem C5_get_tasks_ordered (db : DB) (wc : String) :
    List.Sorted (fun a b : TaskView => a.due_date ≤ b.due_date) (get_tasks db wc) ∧
    List.Perm (get_tasks db wc)
      ((db.tasks.filter (fun t => t.workspace_code == wc)).map (taskView db)) ∧
    ((∀ t ∈ db.tasks, t.workspace_code ≠ wc) → get_tasks db wc = []) := by
  have htrans : ∀ a b c : TaskRow,
      dueLe a b = true → dueLe b c = true → dueLe a c = true := by
    intro a b c hab hbc
    simp only [dueLe, decide_eq_true_eq] at hab hbc ⊢
    exact le_trans hab hbc
  have htotal : ∀ a b : TaskRow, (dueLe a b || dueLe b a) = true := by
    intro a b
    simp only [dueLe, Bool.or_eq_true, decide_eq_true_eq]
    exact le_total a.due_date b.due_date
  refine ⟨?_, ?_, ?_⟩
  · unfold get_tasks
    refine List.Pairwise.map (taskView db) ?_
      (@List.sorted_mergeSort _ dueLe htrans htotal
        (db.tasks.filter (fun t => t.workspace_code == wc)))
    intro a b hab
    simp only [dueLe, decide_eq_true_eq] at hab
    exact hab
  · unfold get_tasks
    exact (List.mergeSort_perm _ dueLe).map (taskView db)
  · intro h
    unfold get_tasks
    have hfil : db.tasks.filter (fun t => t.workspace_code == wc) = [] := by
      rw [List.filter_eq_nil_iff]
      intro t ht
      simp [h t ht]
    rw [hfil, List.mergeSort_nil, List.map_nil]

/-- Claim C5 witness: the empty database yields the empty task list. -/
theorem C5_get_tasks_ordered_witness : get_tasks emptyDB "W" = [] :=
  (C5_get_tasks_ordered emptyDB "W").2.2 (by decide)

/-- Claim C6: a task of the workspace whose assigned_by or assigned_to id
resolves to no user still appears in the get_tasks result, rendered with
username none for the dangling side, rather than being dropped. -/
theorem C6_dangling_reference_rendered (db : DB) (wc : String) (t : TaskRow)
    (ht : t ∈ db.tasks) (hwc : t.workspace_code = wc) :
    ∃ v ∈ get_tasks db wc, v = taskView db t ∧
      ((∀ u ∈ db.users, u.id ≠ t.assigned_by) → v.assigned_by.username = none) ∧
      ((∀ u ∈ db.users, u.id ≠ t.assigned_to) → v.assigned_to.username = none) := by
  refine ⟨taskView db t, ?_, rfl, ?_, ?_⟩
  · unfold get_tasks
    refine List.mem_map_of_mem (taskView db) ?_
    rw [(List.mergeSort_perm _ dueLe).mem_iff]
    exact List.mem_filter.2 ⟨ht, by simp [hwc]⟩
  · intro h
    show lookupUsername db t.assigned_by = none
    unfold lookupUsername
    rw [List.find?_eq_none.2 (fun u hu huq => h u hu (beq_iff_eq.1 huq))]
    rfl
  · intro h
    show lookupUsername db t.assigned_to = none
    unfold lookupUsername
    rw [List.find?_eq_none.2 (fun u hu huq => h u hu (beq_iff_eq.1 huq))]
    rfl

/-- Claim C6 witness: the task with both references dangling in a database
with no users appears in the listing with both usernames absent. -/
theorem C6_dangling_reference_rendered_witness :
    ∃ v ∈ get_tasks taskDB "W", v = taskView taskDB task1 ∧
      v.assigned_by.username = none ∧ v.assigned_to.username = none := by
  obtain ⟨v, hv, hveq, h1, h2⟩ :=
    C6_dangling_reference_rendered taskDB "W" task1 (by decide) rfl
  exact ⟨v, hv, hveq, h1 (by decide), h2 (by decide)⟩

/-- Claim C7: complete_task always reports success; on an existing id it
stores the row with completed true and updated_at refreshed to the call
timestamp; repeating the call is idempotent (the whole result, outcome
included, is unchanged); and completed is one-way: no operation that
writes the tasks table (complete_task, add_task, signup) ever takes an
existing completed task back to false. -/
theorem C7_complete_transition :
    (∀ (db : DB) (tid : Nat) (now : Int),
        (complete_task db tid now).1 = .ok "Task marked complete") ∧
    (∀ (db : DB) (tid : Nat) (now : Int) (t : TaskRow), t ∈ db.tasks → t.id = tid →
        ({ t with completed := true, updated_at := now } : TaskRow)
          ∈ (complete_task db tid now).2.tasks) ∧
    (∀ (db : DB) (tid : Nat) (now : Int),
        complete_task (complete_task db tid now).2 tid now = complete_task db tid now) ∧
    (∀ (db : DB) (tid : Nat) (now2 : Int) (t : TaskRow),
        t ∈ db.tasks → t.completed = true →
        ∃ t2 ∈ (complete_task db tid now2).2.tasks, t2.id = t.id ∧ t2.completed = true) ∧
    (∀ (db : DB) (task : TaskModel) (now : Int) (res : InsertResult) (t : TaskRow),
        t ∈ db.tasks → t ∈ (add_task db task now res).2.tasks) ∧
    (∀ (db : DB) (m : SignupModel) (salt : Nat) (wc pc : String),
        (signup db m salt wc pc).2.tasks = db.tasks) := by
  refine ⟨fun db tid now => rfl, ?_, ?_, ?_, ?_, ?_⟩
  · intro db tid now t ht htid
    subst htid
    have hmem := List.mem_map_of_mem
      (fun a : TaskRow =>
        if a.id == t.id then { a with completed := true, updated_at := now } else a) ht
    simp only [beq_self_eq_true, if_true] at hmem
    exact hmem
  · intro db tid now
    unfold complete_task
    rw [Prod.mk.injEq]
    refine ⟨rfl, ?_⟩
    rw [DB.mk.injEq]
    refine ⟨rfl, ?_, rfl, rfl⟩
    rw [List.map_map]
    refine List.map_congr_left ?_
    intro a _
    by_cases h : (a.id == tid) = true
    · simp [Function.comp, h]
    · simp [Function.comp, h]
  · intro db tid now2 t ht hc
    refine ⟨if t.id == tid then { t with completed := true, updated_at := now2 } else t,
      List.mem_map_of_mem _ ht, ?_, ?_⟩
    · by_cases h : (t.id == tid) = true
      · rw [if_pos h]
      · rw [if_neg h]
    · by_cases h : (t.id == tid) = true
      · rw [if_pos h]
      · rw [if_neg h]
        exact hc
  · intro db task now res t ht
    cases res with
    | ok => exact List.mem_append_left _ ht
    | violation msg => exact ht
  · intro db m salt wc pc
    unfold signup
    by_cases h : db.users.any
        (fun u => u.username == m.username || u.email == m.email) = true
    · rw [if_pos h]
    · rw [if_neg h]

/-- Claim C7 witness: completing the concrete task stores it completed with
the refreshed timestamp. -/
theorem C7_complete_transition_witness :
    ({ task1 with completed := true, updated_at := 9 } : TaskRow)
      ∈ (complete_task taskDB 1 9).2.tasks :=
  C7_complete_transition.2.1 taskDB 1 9 task1 (by decide) rfl

/-- Claim C10: complete_task leaves the users table and both id counters
untouched, and row-by-row every task keeps its id, workspace_code,
task_name, assigned_by, assigned_to, due_date and created_at; a row whose
id differs from the targeted one is entirely unchanged. -/
theorem C10_complete_task_frame (db : DB) (tid : Nat) (now : Int) :
    (complete_task db tid now).2.users = db.users ∧
    (complete_task db tid now).2.nextUserId = db.nextUserId ∧
    (complete_task db tid now).2.nextTaskId = db.nextTaskId ∧
    List.Forall₂ (fun t t2 : TaskRow =>
        t2.id = t.id ∧ t2.workspace_code = t.workspace_code ∧
        t2.task_name = t.task_name ∧ t2.assigned_by = t.assigned_by ∧
        t2.assigned_to = t.assigned_to ∧ t2.due_date = t.due_date ∧
        t2.created_at = t.created_at ∧ (t.id ≠ tid → t2 = t))
      db.tasks (complete_task db tid now).2.tasks := by
  refine ⟨rfl, rfl, rfl, ?_⟩
  have hts : (complete_task db tid now).2.tasks = db.tasks.map
      (fun t => if t.id == tid then { t with completed := true, updated_at := now } else t) :=
    rfl
  rw [hts, List.forall₂_map_right_iff, List.forall₂_same]
  intro t _
  by_cases h : (t.id == tid) = true
  · rw [if_pos h]
    exact ⟨rfl, rfl, rfl, rfl, rfl, rfl, rfl,
      fun hne => absurd (beq_iff_eq.1 h) hne⟩
  · rw [if_neg h]
    exact ⟨rfl, rfl, rfl, rfl, rfl, rfl, rfl, fun _ => rfl⟩

/-- Claim C10 witness at the concrete single-task database. -/
theorem C10_complete_task_frame_witness :
    (complete_task taskDB 1 9).2.users = taskDB.users ∧
    (complete_task taskDB 1 9).2.nextUserId = taskDB.nextUserId ∧
    (complete_task taskDB 1 9).2.nextTaskId = taskDB.nextTaskId :=
  ⟨(C10_complete_task_frame taskDB 1 9).1,
   (C10_complete_task_frame taskDB 1 9).2.1,
   (C10_complete_task_frame taskDB 1 9).2.2.1⟩

end DoltNow
